import Mathlib

/-!
# Verification of the secretflow-worker orchestration core

Shallow embedding of the task-orchestration modules of the worker:

* `src/secretflow_task/task_dispatcher.py`   (handler registry / router)
* `src/secretflow_task/cluster_initializer.py` (cluster lifecycle singleton)
* `src/secretflow_task/device_manager.py`    (device lifecycle singleton)
* `src/secretflow_task/task_executor.py`     (orchestrator + metrics)
* `src/secretflow_task/celery_tasks.py`      (queue wrapper retry policy)
* `src/utils/status_notifier.py`             (best-effort status events)

Python exceptions are modelled with `Except` over an explicit error type;
external calls whose outcome the code merely observes (`sf.init`,
`SPU(...)`, redis publishing, wall-clock durations) are supplied through
explicit oracle records, so every embedded function is a pure, executable
Lean function of its inputs and the oracle.
-/

namespace SFWorker

/-- Error taxonomy of `src/utils/exceptions.py`, plus the generic Python
errors the orchestration code raises or catches.  `spuInitError` and
`heuInitError` are subclasses of `DeviceConfigError` in the source, which
matters for `isinstance`-based retry classification. -/
inductive PyErr where
  | clusterInitError (msg : String)
  | deviceConfigError (msg : String)
  | spuInitError (msg : String)
  | heuInitError (msg : String)
  | algorithmError (msg : String)
  | parameterValidationError (msg : String)
  | dataLoadError (msg : String)
  | resultSaveError (msg : String)
  | valueErrorDuplicateTask (task_type : String)
  | valueErrorUnknownTask (task_type : String) (supported : List String)
  | softTimeLimitExceeded
  | otherError (tag : String)
deriving DecidableEq, Repr

/-- Python `dict` assignment `d[k] = v`: replace in place if the key exists,
otherwise append (insertion order preserved, as in CPython dicts). -/
def dictSet {α : Type} (d : List (String × α)) (k : String) (v : α) :
    List (String × α) :=
  if (d.lookup k).isSome then
    d.map (fun p => if p.1 = k then (k, v) else p)
  else d ++ [(k, v)]

/-- Python `d.update(e)`: set every key of `e` in `d`, in order. -/
def dictUpdate {α : Type} (d e : List (String × α)) : List (String × α) :=
  e.foldl (fun acc p => dictSet acc p.1 p.2) d

/-! ## Device data model (`device_manager.py`) -/

/-- One entry of `cluster_def["nodes"]`; only the `"party"` key is read by
the manager (`node["party"] for node in nodes if "party" in node`). -/
structure SPUNode where
  party : Option String
deriving DecidableEq, Repr

/-- The `cluster_def` value of an SPU configuration; `nodes` is the
`"nodes"` key (`.get("nodes", [])`, so an absent key is the empty list). -/
structure ClusterDef where
  nodes : List SPUNode
deriving DecidableEq, Repr

/-- An SPU device configuration dict.  `cluster_def = none` models both an
absent `"cluster_def"` key and a falsy value, which the source treats the
same way (`config.get("cluster_def")` followed by `if not cluster_def`). -/
structure SpuConfig where
  cluster_def : Option ClusterDef
deriving DecidableEq, Repr

/-- An HEU configuration dict (contents are passed through to `HEU(**config)`
and never inspected by the manager). -/
abbrev HeuConfig := List (String × String)

/-- A device handle held by the manager. -/
inductive Device where
  | pyu (party : String)
  | spu (cluster_def : ClusterDef)
  | heu (config : HeuConfig)
deriving DecidableEq, Repr

/-- A DeviceSet: the dict returned by `initialize_devices`, keyed by party
name or the literal names `"spu"` / `"heu"`. -/
abbrev DeviceSet := List (String × Device)

/-- Internal state of the `DeviceManager` singleton: `self._devices` and
`self._device_init_times` (durations modelled as `Nat` ticks). -/
structure DMState where
  devices : List (String × Device)
  device_init_times : List (String × Nat)
deriving DecidableEq, Repr

/-- The state of a freshly constructed `DeviceManager`. -/
def freshDM : DMState := ⟨[], []⟩

/-- Outcomes of the external constructor calls made by the manager, and the
wall-clock durations it records.  `pyu_ok party = false` means `PYU(party)`
raised, `spu_ok = false` means `SPU(cluster_def=...)` raised, and
`heu_ok = false` means `HEU(**config)` raised. -/
structure DevOracle where
  pyu_ok : String → Bool
  spu_ok : Bool
  heu_ok : Bool
  pyu_time : Nat
  spu_time : Nat
  heu_time : Nat

/-- The loop of `create_pyu_devices`: one `PYU(party)` per party, a failing
constructor is logged and that party skipped (`continue`). -/
def pyu_fold (parties : List String) (o : DevOracle) : List (String × Device) :=
  parties.foldl
    (fun acc party =>
      if o.pyu_ok party then dictSet acc party (Device.pyu party) else acc) []

/-- `DeviceManager.create_pyu_devices`: runs the creation loop; the `"pyu"`
init duration is recorded unconditionally. -/
def create_pyu_devices (parties : List String) (o : DevOracle) (st : DMState) :
    (List (String × Device)) × DMState :=
  (pyu_fold parties o,
   { st with device_init_times := dictSet st.device_init_times "pyu" o.pyu_time })

/-- The device (if any) that `create_spu_device` returns, as a function of
the configuration and oracle alone. -/
def spu_result (config : SpuConfig) (o : DevOracle) : Option Device :=
  match config.cluster_def with
  | none => none
  | some cd => if o.spu_ok then some (Device.spu cd) else none

/-- The device (if any) that `create_heu_device` returns, as a function of
the configuration and oracle alone. -/
def heu_result (config : HeuConfig) (o : DevOracle) : Option Device :=
  if o.heu_ok then some (Device.heu config) else none

/-- `DeviceManager.create_spu_device`: returns `None` (never raises) when
`cluster_def` is missing/falsy, and also when `SPU(cluster_def=...)` raises,
recording an `"spu_failed"` duration in the latter case. -/
def create_spu_device (config : SpuConfig) (o : DevOracle) (st : DMState) :
    Option Device × DMState :=
  match config.cluster_def with
  | none => (none, st)
  | some cd =>
    if o.spu_ok then
      (some (Device.spu cd),
       { st with device_init_times := dictSet st.device_init_times "spu" o.spu_time })
    else
      (none,
       { st with device_init_times := dictSet st.device_init_times "spu_failed" o.spu_time })

/-- `DeviceManager.create_heu_device`: returns `None` (never raises) when
`HEU(**config)` raises, recording an `"heu_failed"` duration. -/
def create_heu_device (config : HeuConfig) (o : DevOracle) (st : DMState) :
    Option Device × DMState :=
  if o.heu_ok then
    (some (Device.heu config),
     { st with device_init_times := dictSet st.device_init_times "heu" o.heu_time })
  else
    (none,
     { st with device_init_times := dictSet st.device_init_times "heu_failed" o.heu_time })

/-- The party list `initialize_devices` derives from the SPU configuration:
`[node["party"] for node in nodes if "party" in node]`. -/
def spu_parties (spu_config : Option SpuConfig) : List String :=
  match spu_config with
  | some sc =>
    match sc.cluster_def with
    | some cd => cd.nodes.filterMap (fun n => n.party)
    | none => []
  | none => []

/-- The body of `DeviceManager.initialize_devices`: builds the local
`devices` dict and threads the manager state.  A `create_*` helper
returning `None` simply leaves the corresponding key out of the returned
dict. -/
def initialize_devices_core (pyu_config : Option Unit)
    (spu_config : Option SpuConfig) (heu_config : Option HeuConfig)
    (o : DevOracle) (st : DMState) : DeviceSet × DMState :=
  let parties := spu_parties spu_config
  let step1 : DeviceSet × DMState :=
    if pyu_config.isSome ∧ parties ≠ [] then
      let c := create_pyu_devices parties o st
      if c.1 ≠ [] then
        (dictUpdate [] c.1, { c.2 with devices := dictUpdate c.2.devices c.1 })
      else ([], c.2)
    else ([], st)
  let step2 : DeviceSet × DMState :=
    match spu_config with
    | some scfg =>
      let c := create_spu_device scfg o step1.2
      match c.1 with
      | some d =>
        (dictSet step1.1 "spu" d, { c.2 with devices := dictSet c.2.devices "spu" d })
      | none => (step1.1, c.2)
    | none => step1
  let step3 : DeviceSet × DMState :=
    match heu_config with
    | some hcfg =>
      let c := create_heu_device hcfg o step2.2
      match c.1 with
      | some d =>
        (dictSet step2.1 "heu" d, { c.2 with devices := dictSet c.2.devices "heu" d })
      | none => (step2.1, c.2)
    | none => step2
  step3

/-- `DeviceManager.initialize_devices`.  Typed in `Except` so that "the
call fails with an error" is representable; the Python body contains no
`raise` and every constructor failure is caught inside the `create_*`
helpers, so every path returns normally (`.ok`). -/
def initialize_devices (pyu_config : Option Unit) (spu_config : Option SpuConfig)
    (heu_config : Option HeuConfig) (o : DevOracle) (st : DMState) :
    Except PyErr (DeviceSet × DMState) :=
  .ok (initialize_devices_core pyu_config spu_config heu_config o st)

/-- Is a held handle of the secure-computation (SPU) kind? -/
def isSpuDevice : Device → Bool
  | Device.spu _ => true
  | _ => false

/-- Which devices expose a shutdown hook (`hasattr(device, "shutdown")`):
SPU and HEU handles do, PYU handles do not. -/
def has_shutdown_hook : Device → Bool
  | Device.pyu _ => false
  | Device.spu _ => true
  | Device.heu _ => true

set_option linter.unusedVariables false in
/-- `DeviceManager.cleanup_devices`: iterates the held handles, invokes the
shutdown hook where present (a failing hook, `hook_ok name = false`, is
logged and swallowed), then unconditionally `clear()`s both dicts.  The
second component records, in order, the device names whose hook was
invoked; the resulting state never depends on `hook_ok`. -/
def cleanup_devices (hook_ok : String → Bool) (st : DMState) :
    DMState × List String :=
  let shut := st.devices.filterMap
    (fun p => if has_shutdown_hook p.2 then some p.1 else none)
  (⟨[], []⟩, shut)

/-! ## Handler registry (`task_dispatcher.py`) -/

/-- A task configuration dict as read by the orchestration layer: only the
`"task_type"` key is inspected (`none` models an absent key and the falsy
empty string alike, matching `task_config.get("task_type")` plus truthiness
tests). -/
structure TaskConfig where
  task_type : Option String
deriving DecidableEq, Repr

/-- A registered handler: `func(devices, task_config)`, which may raise. -/
abbrev Handler (α : Type) := DeviceSet → TaskConfig → Except PyErr α

/-- `TaskDispatcher.TASK_REGISTRY`, insertion-ordered. -/
abbrev Registry (α : Type) := List (String × Handler α)

/-- `TaskDispatcher.list_supported_tasks`: `sorted(cls.TASK_REGISTRY.keys())`. -/
def list_supported_tasks {α : Type} (reg : Registry α) : List String :=
  (reg.map Prod.fst).insertionSort (· ≤ ·)

/-- `TaskDispatcher.register_task` (the inner `decorator`): raises
`ValueError` if `task_type` is already registered — before any write — and
otherwise stores the handler.  Returned pair: the raise/return outcome and
the registry afterwards. -/
def register_task {α : Type} (task_type : String) (func : Handler α)
    (reg : Registry α) : Except PyErr Unit × Registry α :=
  if (reg.lookup task_type).isSome then
    (.error (.valueErrorDuplicateTask task_type), reg)
  else
    (.ok (), dictSet reg task_type func)

/-- `TaskDispatcher.dispatch`: unknown `task_type` raises a `ValueError`
carrying the sorted list of registered types; otherwise the handler is
invoked and its result — or its exception, re-raised by the bare `raise` —
is propagated unchanged. -/
def dispatch {α : Type} (task_type : String) (devices : DeviceSet)
    (task_config : TaskConfig) (reg : Registry α) : Except PyErr α :=
  match reg.lookup task_type with
  | none => .error (.valueErrorUnknownTask task_type (list_supported_tasks reg))
  | some func => func devices task_config

/-! ## Cluster lifecycle (`cluster_initializer.py`) -/

/-- Internal state of the `SecretFlowClusterInitializer` singleton:
`self._cluster_initialized` and `self._initialization_time`, plus ghost
counters of how often the underlying `sf.init` / `sf.shutdown` calls were
actually made. -/
structure CIState where
  cluster_initialized : Bool
  initialization_time : Option Nat
  sf_init_calls : Nat
  sf_shutdown_calls : Nat
deriving DecidableEq, Repr

/-- The state of a freshly constructed initializer. -/
def freshCI : CIState := ⟨false, none, 0, 0⟩

/-- Outcome of one `sf.init(**sf_init_config)` call (`sf_init_ok = false`
means it raised) together with the measured wall-clock duration. -/
structure ClusterEnv where
  sf_init_ok : Bool
  init_duration : Nat
deriving DecidableEq, Repr

/-- `SecretFlowClusterInitializer.initialize_cluster`: an already
initialized manager short-circuits to `True` without touching anything;
otherwise `sf.init` runs once, success records the duration and marks the
manager ready, failure is caught and reported as `False` with the recorded
duration left unchanged. -/
def initialize_cluster (env : ClusterEnv) (st : CIState) : Bool × CIState :=
  if st.cluster_initialized then (true, st)
  else
    let st' := { st with sf_init_calls := st.sf_init_calls + 1 }
    if env.sf_init_ok then
      (true, { st' with cluster_initialized := true,
                        initialization_time := some env.init_duration })
    else
      (false, { st' with cluster_initialized := false })

/-- `SecretFlowClusterInitializer.shutdown_cluster`: a not-initialized
manager returns immediately; otherwise `sf.shutdown` runs once and — caught
exception or not (`sf_shutdown_ok`) — the manager is marked not
initialized.  The Python body catches every exception, so the embedded
function is total. -/
def shutdown_cluster (sf_shutdown_ok : Bool) (st : CIState) : CIState :=
  if st.cluster_initialized then
    let st' := { st with sf_shutdown_calls := st.sf_shutdown_calls + 1 }
    if sf_shutdown_ok then
      { st' with cluster_initialized := false }
    else
      { st' with cluster_initialized := false }
  else st

/-- `SecretFlowClusterInitializer.is_cluster_ready`. -/
def is_cluster_ready (st : CIState) : Bool := st.cluster_initialized

/-! ## Performance metrics (`task_executor.py`, `_collect_performance_metrics`)

Durations are modelled as rationals; `time.time() - start_time` is passed
in directly as `total_time`.  Python `round(x, n)` is modelled as
round-half-up at `n` decimal places (CPython uses banker's rounding on
floats at exact ties, which none of the claims depend on). -/

/-- `round(q, 2)` at two decimal places. -/
def round2 (q : ℚ) : ℚ := (round (q * 100) : ℤ) / 100

/-- `round(q, 1)` at one decimal place. -/
def round1 (q : ℚ) : ℚ := (round (q * 10) : ℤ) / 10

/-- Python truthiness of an `Optional[float]`: `None` and `0.0` are falsy. -/
def qTruthy : Option ℚ → Bool
  | none => false
  | some q => decide (q ≠ 0)

/-- Python `x or 0` on an `Optional[float]`: the value if truthy, else `0`. -/
def pyOr0 (x : Option ℚ) : ℚ :=
  match x with
  | none => 0
  | some q => if q = 0 then 0 else q

/-- `round(x, 2) if x else None`, the reporting pattern used for each phase
duration. -/
def report_time (x : Option ℚ) : Option ℚ :=
  if qTruthy x then some (round2 (x.getD 0)) else none

/-- The metrics dict built by `_collect_performance_metrics`; the three
percentage keys are only present when `total_time > 0`. -/
structure PerformanceMetrics where
  total_execution_time : ℚ
  cluster_init_time : Option ℚ
  device_init_time : Option ℚ
  algorithm_exec_time : Option ℚ
  overhead_time : ℚ
  cluster_init_percentage : Option ℚ
  device_init_percentage : Option ℚ
  algorithm_exec_percentage : Option ℚ
deriving DecidableEq, Repr

/-- `_collect_performance_metrics` with `total_time = time.time() - start_time`
already computed. -/
def collect_performance_metrics (total_time : ℚ)
    (cluster_init_time device_init_time algorithm_exec_time : Option ℚ) :
    PerformanceMetrics :=
  { total_execution_time := round2 total_time
    cluster_init_time := report_time cluster_init_time
    device_init_time := report_time device_init_time
    algorithm_exec_time := report_time algorithm_exec_time
    overhead_time := round2 (total_time - pyOr0 cluster_init_time
      - pyOr0 device_init_time - pyOr0 algorithm_exec_time)
    cluster_init_percentage :=
      if total_time > 0 then some (round1 (pyOr0 cluster_init_time / total_time * 100))
      else none
    device_init_percentage :=
      if total_time > 0 then some (round1 (pyOr0 device_init_time / total_time * 100))
      else none
    algorithm_exec_percentage :=
      if total_time > 0 then some (round1 (pyOr0 algorithm_exec_time / total_time * 100))
      else none }

/-! ## Orchestrator (`task_executor.py`, `execute_secretflow_task`)

The run is driven by an environment record holding the task inputs plus the
oracle outcomes of every external call.  Status publication
(`_publish_status`) never raises (proved below for the notifier embedding)
and has no effect on control flow, so it does not appear in the state.  The
returned `outcome` is the handler result (the `result` field of the success
dict) or the exception that escapes the `try` body. -/

/-- Events of the `finally` block, in the order they are performed. -/
inductive CleanupEv where
  | cleanup_devices
  | shutdown_cluster
deriving DecidableEq, Repr

/-- Inputs and oracle outcomes for one `execute_secretflow_task` run. -/
structure ExecEnv (α : Type) where
  cluster : ClusterEnv
  sf_shutdown_ok : Bool
  dev : DevOracle
  hook_ok : String → Bool
  spu_config : Option SpuConfig
  heu_config : Option HeuConfig
  task_config : TaskConfig
  registry : Registry α

/-- Result of the `try` body of `execute_secretflow_task`, together with the
manager states and whether each manager variable had been assigned
(`cluster_initializer` / `device_manager` being non-`None` is what the
`finally` block tests). -/
structure TryResult (α : Type) where
  outcome : Except PyErr α
  ci : CIState
  dm : DMState
  cluster_obtained : Bool
  device_obtained : Bool

/-- The `try` body of `execute_secretflow_task`: cluster init (a `False`
return raises `ClusterInitError`), then device init (an empty DeviceSet
raises `DeviceConfigError`), then the `task_type` check (missing raises
`AlgorithmError`), then `TaskDispatcher.dispatch`.  `cluster_initializer`
is assigned before `initialize_cluster` is called, and `device_manager`
before `initialize_devices`, so the obtained flags are set accordingly. -/
def exec_try_phase {α : Type} (env : ExecEnv α) (ci0 : CIState) (dm0 : DMState) :
    TryResult α :=
  let r1 := initialize_cluster env.cluster ci0
  if r1.1 = false then
    { outcome := .error (.clusterInitError "集群初始化失败"),
      ci := r1.2, dm := dm0, cluster_obtained := true, device_obtained := false }
  else
    match initialize_devices (some ()) env.spu_config env.heu_config env.dev dm0 with
    | .error e =>
      { outcome := .error e, ci := r1.2, dm := dm0,
        cluster_obtained := true, device_obtained := true }
    | .ok (devices, dm1) =>
      if devices = [] then
        { outcome := .error (.deviceConfigError "设备初始化失败，未创建任何设备"),
          ci := r1.2, dm := dm1, cluster_obtained := true, device_obtained := true }
      else
        match env.task_config.task_type with
        | none =>
          { outcome := .error (.algorithmError "任务配置中缺少task_type字段"),
            ci := r1.2, dm := dm1, cluster_obtained := true, device_obtained := true }
        | some tt =>
          { outcome := dispatch tt devices env.task_config env.registry,
            ci := r1.2, dm := dm1, cluster_obtained := true, device_obtained := true }

/-- Observable result of a full `execute_secretflow_task` run. -/
structure ExecOutcome (α : Type) where
  outcome : Except PyErr α
  cluster_obtained : Bool
  device_obtained : Bool
  cleanup_trace : List CleanupEv
  ci_final : CIState
  dm_final : DMState

/-- `execute_secretflow_task`: the `try` body followed by the `finally`
block, which calls `cleanup_devices()` when `device_manager` was assigned
and then `shutdown_cluster()` when `cluster_initializer` was assigned.
Both embedded cleanup functions are total (each swallows its internal
failures), so the `try/except` wrapped around the `finally` body never
fires and the outcome of the `try` body is returned unchanged. -/
def execute_secretflow_task {α : Type} (env : ExecEnv α) (ci0 : CIState)
    (dm0 : DMState) : ExecOutcome α :=
  let t := exec_try_phase env ci0 dm0
  let dm' := if t.device_obtained then (cleanup_devices env.hook_ok t.dm).1 else t.dm
  let ci' := if t.cluster_obtained then shutdown_cluster env.sf_shutdown_ok t.ci else t.ci
  { outcome := t.outcome
    cluster_obtained := t.cluster_obtained
    device_obtained := t.device_obtained
    cleanup_trace :=
      (if t.device_obtained then [CleanupEv.cleanup_devices] else []) ++
      (if t.cluster_obtained then [CleanupEv.shutdown_cluster] else [])
    ci_final := ci'
    dm_final := dm' }

/-! ## Queue wrapper retry policy (`celery_tasks.py`)

`execute_secretflow_celery_task` routes an exception from one attempt
through its `except` clauses: `SoftTimeLimitExceeded` is re-raised
(terminal), `(ClusterInitError, DeviceConfigError)` — including their
subclasses `SPUInitError` / `HEUInitError` — trigger `self.retry(exc=e,
countdown=60)`, and every other exception is re-raised (terminal).  The
retry loop itself is Celery library behaviour, modelled from its documented
semantics with the configuration constants of `SecretFlowTask`:
`self.retry` re-runs the task while the retry count is below
`max_retries`, and re-raises the original exception once retries are
exhausted. -/

/-- `retry_kwargs["max_retries"]` of `SecretFlowTask`. -/
def max_retries : Nat := 3

/-- `retry_backoff_max` of `SecretFlowTask`: upper bound on any retry delay. -/
def retry_backoff_max : Nat := 600

/-- `retry_kwargs["countdown"]`, the delay passed to every `self.retry`. -/
def retry_countdown : Nat := 60

/-- `isinstance(e, (ClusterInitError, DeviceConfigError))`: the guard of
the retrying `except` clause (`SPUInitError` and `HEUInitError` derive from
`DeviceConfigError`). -/
def is_retryable_error : PyErr → Bool
  | .clusterInitError _ => true
  | .deviceConfigError _ => true
  | .spuInitError _ => true
  | .heuInitError _ => true
  | _ => false

/-- What one attempt of the wrapper does with the try-body outcome. -/
inductive AttemptStep (α : Type) where
  | done (r : α)
  | retryRequested (e : PyErr) (countdown : Nat)
  | terminal (e : PyErr)
deriving DecidableEq, Repr

/-- The `except`-clause routing of `execute_secretflow_celery_task`:
timeout first, then the retryable pair, then the catch-all. -/
def wrapper_attempt {α : Type} (body : Except PyErr α) : AttemptStep α :=
  match body with
  | .ok r => .done r
  | .error e =>
    if e = PyErr.softTimeLimitExceeded then .terminal e
    else if is_retryable_error e then .retryRequested e retry_countdown
    else .terminal e

/-- Terminal observable result of the wrapper across all attempts:
the reported result or terminal failure, how many times the task body ran,
and the countdown used before each retry. -/
structure CeleryFinal (α : Type) where
  result : Except PyErr α
  attempts : Nat
  delays : List Nat
deriving Repr

/-- Celery's retry loop (modelled from its documented semantics), driven by
the embedded attempt classification: `body n` is the outcome of the attempt
with `self.request.retries = n`; a retry request with `retries <
max_retries` schedules a fresh attempt, otherwise the original exception
becomes the terminal failure. -/
def celery_run {α : Type} (body : Nat → Except PyErr α) (retries : Nat) :
    CeleryFinal α :=
  match wrapper_attempt (body retries) with
  | .done r => { result := .ok r, attempts := 1, delays := [] }
  | .terminal e => { result := .error e, attempts := 1, delays := [] }
  | .retryRequested e cd =>
    if h : retries < max_retries then
      let rest := celery_run body (retries + 1)
      { result := rest.result, attempts := rest.attempts + 1, delays := cd :: rest.delays }
    else
      { result := .error e, attempts := 1, delays := [] }
termination_by max_retries - retries
decreasing_by omega

/-! ## Status notifier (`utils/status_notifier.py`) -/

/-- Oracle outcomes for the external operations `_publish_status` performs:
timestamp construction, the settings lookup in `_get_worker_id`, the
`import redis`, and the publish/lpush round trip. -/
structure NotifierEnv where
  timestamp : Except PyErr String
  worker_id : Except PyErr String
  redis_import_ok : Bool
  redis_publish : Except PyErr Unit

/-- The body of `_publish_to_redis` before its `except` clauses: a failing
`import redis` raises `ImportError`, then the client calls may raise. -/
def publish_to_redis_attempt (env : NotifierEnv) : Except PyErr Unit :=
  if env.redis_import_ok then env.redis_publish
  else .error (.otherError "ImportError")

/-- `_publish_to_redis`: both `except ImportError: pass` and
`except Exception: pass` silently swallow the failure. -/
def publish_to_redis (env : NotifierEnv) : Except PyErr Unit :=
  match publish_to_redis_attempt env with
  | .ok _ => .ok ()
  | .error _ => .ok ()

/-- The `try` body of `_publish_status`: building `event_data` evaluates
`_get_timestamp()` and `_get_worker_id()`, then `_publish_to_redis` runs. -/
def publish_status_attempt (env : NotifierEnv) : Except PyErr Unit := do
  let _ts ← env.timestamp
  let _wid ← env.worker_id
  publish_to_redis env

/-- `_publish_status`: the whole body sits in `try ... except Exception:
pass`, so every internal failure is discarded. -/
def publish_status (env : NotifierEnv) : Except PyErr Unit :=
  match publish_status_attempt env with
  | .ok _ => .ok ()
  | .error _ => .ok ()

/-! ## Helper lemmas -/

/-- A member of `dictSet d k v` is a member of `d` or the new binding. -/
theorem mem_dictSet {α : Type} {p : String × α} {d : List (String × α)}
    {k : String} {v : α} (h : p ∈ dictSet d k v) : p ∈ d ∨ p = (k, v) := by
  unfold dictSet at h
  split at h
  · rcases List.mem_map.mp h with ⟨q, hq, hqe⟩
    by_cases hk : q.1 = k
    · rw [if_pos hk] at hqe
      exact Or.inr hqe.symm
    · rw [if_neg hk] at hqe
      exact Or.inl (hqe ▸ hq)
  · rcases List.mem_append.mp h with h | h
    · exact Or.inl h
    · right
      simpa using h

/-- A member of `dictUpdate d e` is a member of `d` or of `e`. -/
theorem mem_dictUpdate {α : Type} {p : String × α} {e d : List (String × α)}
    (h : p ∈ dictUpdate d e) : p ∈ d ∨ p ∈ e := by
  induction e generalizing d with
  | nil => exact Or.inl h
  | cons q e ih =>
    have h' : p ∈ dictUpdate (dictSet d q.1 q.2) e := h
    rcases ih h' with h'' | h''
    · rcases mem_dictSet h'' with h3 | h3
      · exact Or.inl h3
      · refine Or.inr ?_
        rw [h3]
        exact List.mem_cons_self _ _
    · exact Or.inr (List.mem_cons_of_mem _ h'')

/-- Every handle created by `create_pyu_devices` is a PYU handle. -/
theorem create_pyu_devices_no_spu (parties : List String) (o : DevOracle)
    (st : DMState) :
    ∀ p ∈ (create_pyu_devices parties o st).1, isSpuDevice p.2 = false := by
  have key : ∀ (l : List String) (acc : List (String × Device)),
      (∀ p ∈ acc, isSpuDevice p.2 = false) →
      ∀ p ∈ l.foldl (fun acc party =>
          if o.pyu_ok party then dictSet acc party (Device.pyu party) else acc) acc,
        isSpuDevice p.2 = false := by
    intro l
    induction l with
    | nil => exact fun acc hacc p hp => hacc p hp
    | cons a l ih =>
      intro acc hacc p hp
      rw [List.foldl_cons] at hp
      refine ih _ ?_ p hp
      intro q hq
      by_cases ha : o.pyu_ok a
      · rw [if_pos ha] at hq
        rcases mem_dictSet hq with h | h
        · exact hacc q h
        · rw [h]
          rfl
      · rw [if_neg ha] at hq
        exact hacc q hq
  exact key parties [] (fun p hp => absurd hp (List.not_mem_nil p))

/-- An invalid SPU configuration (missing/falsy `cluster_def`, or a raising
`SPU` constructor) makes `create_spu_device` return `None`, whatever the
manager state. -/
theorem create_spu_device_invalid (sc : SpuConfig) (o : DevOracle) (st : DMState)
    (h : sc.cluster_def = none ∨ o.spu_ok = false) :
    (create_spu_device sc o st).1 = none := by
  rcases h with h | h
  · simp [create_spu_device, h]
  · cases hcd : sc.cluster_def <;> simp [create_spu_device, hcd, h]

/-- Under an invalid SPU configuration, no secure-computation handle
appears in the DeviceSet built with no HEU configuration. -/
theorem core_spu_invalid_no_heu (pc : Option Unit) (sc : SpuConfig)
    (o : DevOracle) (st : DMState)
    (hinv : sc.cluster_def = none ∨ o.spu_ok = false) :
    ∀ p ∈ (initialize_devices_core pc (some sc) none o st).1,
      isSpuDevice p.2 = false := by
  intro p hp
  have hspu : ∀ s : DMState, (create_spu_device sc o s).1 = none :=
    fun s => create_spu_device_invalid sc o s hinv
  simp only [initialize_devices_core, hspu] at hp
  split at hp
  · split at hp
    · simp only at hp
      rcases mem_dictUpdate hp with h | h
      · exact absurd h (List.not_mem_nil p)
      · exact create_pyu_devices_no_spu _ o st p h
    · simp only at hp
      exact absurd hp (List.not_mem_nil p)
  · simp only at hp
    exact absurd hp (List.not_mem_nil p)

/-- Under an invalid SPU configuration, no secure-computation handle
appears in the DeviceSet at all. -/
theorem core_spu_invalid_no_spu_device (pc : Option Unit) (sc : SpuConfig)
    (hc : Option HeuConfig) (o : DevOracle) (st : DMState)
    (hinv : sc.cluster_def = none ∨ o.spu_ok = false) :
    ∀ p ∈ (initialize_devices_core pc (some sc) hc o st).1,
      isSpuDevice p.2 = false := by
  cases hc with
  | none => exact core_spu_invalid_no_heu pc sc o st hinv
  | some hcfg =>
    intro p hp
    by_cases hh : o.heu_ok
    · simp only [initialize_devices_core, create_heu_device, hh, if_true] at hp
      rcases mem_dictSet hp with h | h
      · exact core_spu_invalid_no_heu pc sc o st hinv p h
      · rw [h]
        rfl
    · simp only [initialize_devices_core, create_heu_device, hh, if_false] at hp
      exact core_spu_invalid_no_heu pc sc o st hinv p hp

/-- The device returned by `create_spu_device` is `spu_result`, whatever
the incoming manager state. -/
theorem create_spu_device_fst_eq (c : SpuConfig) (o : DevOracle) (s : DMState) :
    (create_spu_device c o s).1 = spu_result c o := by
  cases hcd : c.cluster_def <;> by_cases hs : o.spu_ok <;>
    simp [create_spu_device, spu_result, hcd, hs]

/-- The device returned by `create_heu_device` is `heu_result`, whatever
the incoming manager state. -/
theorem create_heu_device_fst_eq (c : HeuConfig) (o : DevOracle) (s : DMState) :
    (create_heu_device c o s).1 = heu_result c o := by
  by_cases hh : o.heu_ok <;> simp [create_heu_device, heu_result, hh]

/-- The DeviceSet returned by `initialize_devices` depends only on the
configurations and the oracle, never on the incoming manager state. -/
theorem initialize_devices_fst_state_independent (pc : Option Unit)
    (sc : Option SpuConfig) (hc : Option HeuConfig) (o : DevOracle)
    (st₁ st₂ : DMState) :
    (initialize_devices_core pc sc hc o st₁).1
      = (initialize_devices_core pc sc hc o st₂).1 := by
  simp only [initialize_devices_core, create_pyu_devices,
    create_spu_device_fst_eq, create_heu_device_fst_eq]
  repeat' split
  all_goals rfl

/-- Every branch of the orchestrator's `try` body has `cluster_initializer`
assigned (it is assigned before the first failure point). -/
theorem exec_try_phase_cluster_obtained {α : Type} (env : ExecEnv α)
    (ci0 : CIState) (dm0 : DMState) :
    (exec_try_phase env ci0 dm0).cluster_obtained = true := by
  unfold exec_try_phase
  repeat' split
  all_goals simp [apply_ite]

/-- The countdown carried by any retry request produced by the wrapper is
the configured `retry_countdown`. -/
theorem wrapper_attempt_countdown {α : Type} (b : Except PyErr α) (e : PyErr)
    (cd : Nat) (h : wrapper_attempt b = AttemptStep.retryRequested e cd) :
    cd = retry_countdown := by
  cases b with
  | ok r => simp [wrapper_attempt] at h
  | error e' =>
    by_cases hs : e' = PyErr.softTimeLimitExceeded
    · simp [wrapper_attempt, hs] at h
    · by_cases hr : is_retryable_error e' = true
      · simp [wrapper_attempt, hs, hr] at h
        exact h.2.symm
      · simp [wrapper_attempt, hs, hr] at h

/-- Unfolding of `celery_run` on a successful attempt. -/
theorem celery_run_done {α : Type} (body : Nat → Except PyErr α) (r : Nat)
    (x : α) (hw : wrapper_attempt (body r) = AttemptStep.done x) :
    celery_run body r = { result := .ok x, attempts := 1, delays := [] } := by
  conv_lhs => rw [celery_run.eq_def]
  simp [hw]

/-- Unfolding of `celery_run` on a terminal exception. -/
theorem celery_run_terminal {α : Type} (body : Nat → Except PyErr α) (r : Nat)
    (e : PyErr) (hw : wrapper_attempt (body r) = AttemptStep.terminal e) :
    celery_run body r = { result := .error e, attempts := 1, delays := [] } := by
  conv_lhs => rw [celery_run.eq_def]
  simp [hw]

/-- Unfolding of `celery_run` on a retry request with retries remaining. -/
theorem celery_run_retry_lt {α : Type} (body : Nat → Except PyErr α) (r : Nat)
    (e : PyErr) (cd : Nat) (h : r < max_retries)
    (hw : wrapper_attempt (body r) = AttemptStep.retryRequested e cd) :
    celery_run body r =
      { result := (celery_run body (r + 1)).result,
        attempts := (celery_run body (r + 1)).attempts + 1,
        delays := cd :: (celery_run body (r + 1)).delays } := by
  conv_lhs => rw [celery_run.eq_def]
  simp [hw, h]

/-- Unfolding of `celery_run` on a retry request with retries exhausted:
the original exception becomes the terminal failure. -/
theorem celery_run_retry_ge {α : Type} (body : Nat → Except PyErr α) (r : Nat)
    (e : PyErr) (cd : Nat) (h : ¬ r < max_retries)
    (hw : wrapper_attempt (body r) = AttemptStep.retryRequested e cd) :
    celery_run body r = { result := .error e, attempts := 1, delays := [] } := by
  conv_lhs => rw [celery_run.eq_def]
  simp [hw, h]

/-- Every delay ever used by the retry loop is the configured countdown. -/
theorem celery_run_delays {α : Type} (body : Nat → Except PyErr α) :
    ∀ (k r : Nat), max_retries - r ≤ k →
      ∀ d ∈ (celery_run body r).delays, d = retry_countdown := by
  intro k
  induction k with
  | zero =>
    intro r hk d hd
    rcases hw : wrapper_attempt (body r) with x | ⟨e, cd⟩ | e
    · rw [celery_run_done body r x hw] at hd
      exact absurd hd (List.not_mem_nil d)
    · rw [celery_run_retry_ge body r e cd (by omega) hw] at hd
      exact absurd hd (List.not_mem_nil d)
    · rw [celery_run_terminal body r e hw] at hd
      exact absurd hd (List.not_mem_nil d)
  | succ k ih =>
    intro r hk d hd
    rcases hw : wrapper_attempt (body r) with x | ⟨e, cd⟩ | e
    · rw [celery_run_done body r x hw] at hd
      exact absurd hd (List.not_mem_nil d)
    · by_cases hr : r < max_retries
      · rw [celery_run_retry_lt body r e cd hr hw] at hd
        simp only [List.mem_cons] at hd
        rcases hd with hd | hd
        · rw [hd]
          exact wrapper_attempt_countdown (body r) e cd hw
        · exact ih (r + 1) (by omega) d hd
      · rw [celery_run_retry_ge body r e cd hr hw] at hd
        exact absurd hd (List.not_mem_nil d)
    · rw [celery_run_terminal body r e hw] at hd
      exact absurd hd (List.not_mem_nil d)

/-! ## Claims -/

/-- C1 (counterexample): with the SPU configuration present (a two-node
`cluster_def`) but invalid — the `SPU` constructor raises (`spu_ok =
false`) — `initialize_devices` does not fail: it returns normally with a
DeviceSet holding the two party handles and silently omitting the `"spu"`
entry, refuting the claim that the whole call fails with an error. -/
theorem C1_counterexample :
    initialize_devices (some ())
        (some { cluster_def := some { nodes :=
            [{ party := some "alice" }, { party := some "bob" }] } })
        none
        { pyu_ok := fun _ => true, spu_ok := false, heu_ok := true,
          pyu_time := 1, spu_time := 1, heu_time := 1 }
        freshDM
      = Except.ok
          ([("alice", Device.pyu "alice"), ("bob", Device.pyu "bob")],
           { devices := [("alice", Device.pyu "alice"), ("bob", Device.pyu "bob")],
             device_init_times := [("pyu", 1), ("spu_failed", 1)] }) ∧
    (([("alice", Device.pyu "alice"), ("bob", Device.pyu "bob")] : DeviceSet).lookup
        "spu") = none := by
  constructor <;> rfl

/-- C1 (amended): when the SPU configuration is present but invalid
(missing/falsy `cluster_def` or a failing `SPU` constructor),
`initialize_devices` does not fail the call: it returns normally with a
DeviceSet containing no secure-computation device handle (the secure
device is silently omitted). -/
theorem C1_amended_silent_omission (pc : Option Unit) (sc : SpuConfig)
    (hc : Option HeuConfig) (o : DevOracle) (st : DMState)
    (hinv : sc.cluster_def = none ∨ o.spu_ok = false) :
    ∃ ds st', initialize_devices pc (some sc) hc o st = Except.ok (ds, st') ∧
      ∀ p ∈ ds, isSpuDevice p.2 = false :=
  ⟨(initialize_devices_core pc (some sc) hc o st).1,
   (initialize_devices_core pc (some sc) hc o st).2,
   rfl,
   core_spu_invalid_no_spu_device pc sc hc o st hinv⟩

/-- Witness for C1 (amended) at a concrete invalid-SPU input. -/
theorem C1_amended_witness :
    ∃ ds st',
      initialize_devices (some ())
          (some { cluster_def := some { nodes := [{ party := some "alice" }] } })
          none
          { pyu_ok := fun _ => true, spu_ok := false, heu_ok := true,
            pyu_time := 1, spu_time := 1, heu_time := 1 }
          freshDM = Except.ok (ds, st') ∧
      ∀ p ∈ ds, isSpuDevice p.2 = false :=
  C1_amended_silent_omission _ _ _ _ _ (Or.inr rfl)

/-- C4: `initialize_cluster` is idempotent — on an already initialized
manager it returns success and leaves the whole state (ready flag,
recorded duration, `sf.init` call counter) unchanged; and starting from a
not-initialized manager, a successful call followed by a second call runs
the underlying `sf.init` exactly once across the two calls. -/
theorem C4_initialize_cluster_idempotent :
    (∀ (env : ClusterEnv) (st : CIState), st.cluster_initialized = true →
       initialize_cluster env st = (true, st)) ∧
    (∀ (env₁ env₂ : ClusterEnv) (st : CIState),
       st.cluster_initialized = false → st.sf_init_calls = 0 →
       (initialize_cluster env₁ st).1 = true →
       initialize_cluster env₂ (initialize_cluster env₁ st).2
           = (true, (initialize_cluster env₁ st).2) ∧
         (initialize_cluster env₂ (initialize_cluster env₁ st).2).2.sf_init_calls
           = 1) := by
  constructor
  · intro env st h
    simp [initialize_cluster, h]
  · intro env₁ env₂ st h0 hc h1
    by_cases hok : env₁.sf_init_ok
    · constructor <;> simp [initialize_cluster, h0, hok, hc]
    · exfalso
      simp [initialize_cluster, h0, hok] at h1

/-- Witness for C4: a concrete already-initialized state, and a fresh
manager successfully initialized twice with the counter ending at one. -/
theorem C4_witness :
    initialize_cluster ⟨false, 9⟩ ⟨true, some 7, 1, 0⟩
        = (true, ⟨true, some 7, 1, 0⟩) ∧
    (initialize_cluster ⟨false, 2⟩ (initialize_cluster ⟨true, 5⟩ freshCI).2
        = (true, (initialize_cluster ⟨true, 5⟩ freshCI).2) ∧
      (initialize_cluster ⟨false, 2⟩
          (initialize_cluster ⟨true, 5⟩ freshCI).2).2.sf_init_calls = 1) :=
  ⟨C4_initialize_cluster_idempotent.1 ⟨false, 9⟩ ⟨true, some 7, 1, 0⟩ rfl,
   C4_initialize_cluster_idempotent.2 ⟨true, 5⟩ ⟨false, 2⟩ freshCI rfl rfl rfl⟩

/-- C5: `shutdown_cluster` (a total function: the Python body catches every
exception) always leaves the manager not ready — also when the underlying
teardown raises — is a no-op on a not-initialized manager, and never
blocks a subsequent successful `initialize_cluster`. -/
theorem C5_shutdown_cluster_safe (ok : Bool) (st : CIState) :
    is_cluster_ready (shutdown_cluster ok st) = false ∧
    (st.cluster_initialized = false → shutdown_cluster ok st = st) ∧
    (∀ env : ClusterEnv, env.sf_init_ok = true →
       (initialize_cluster env (shutdown_cluster ok st)).1 = true) := by
  have hready : (shutdown_cluster ok st).cluster_initialized = false := by
    by_cases h : st.cluster_initialized
    · by_cases hok : ok <;> simp [shutdown_cluster, h, hok]
    · simp [shutdown_cluster, h]
  refine ⟨hready, ?_, ?_⟩
  · intro h
    simp [shutdown_cluster, h]
  · intro env henv
    simp [initialize_cluster, hready, henv]

/-- Witness for C5: a teardown that raises on an initialized manager still
yields the not-ready state, shutdown of a fresh manager is a no-op, and a
subsequent initialization succeeds. -/
theorem C5_witness :
    is_cluster_ready (shutdown_cluster false ⟨true, some 3, 1, 0⟩) = false ∧
    shutdown_cluster true freshCI = freshCI ∧
    (initialize_cluster ⟨true, 4⟩ (shutdown_cluster false ⟨true, some 3, 1, 0⟩)).1
      = true :=
  ⟨(C5_shutdown_cluster_safe false ⟨true, some 3, 1, 0⟩).1,
   (C5_shutdown_cluster_safe true freshCI).2.1 rfl,
   (C5_shutdown_cluster_safe false ⟨true, some 3, 1, 0⟩).2.2 ⟨true, 4⟩ rfl⟩

/-- C6: registering an already registered `task_type` fails (the raised
`ValueError` is returned before any write) and the registry afterwards
still maps that type to the first registered handler. -/
theorem C6_register_task_no_override (α : Type) (t : String)
    (f g : Handler α) (reg : Registry α) (h : reg.lookup t = some f) :
    register_task t g reg = (.error (.valueErrorDuplicateTask t), reg) ∧
    (register_task t g reg).2.lookup t = some f := by
  have hs : (reg.lookup t).isSome = true := by rw [h]; rfl
  constructor
  · simp [register_task, hs]
  · simp [register_task, hs, h]

/-- Witness for C6 on a one-entry registry. -/
theorem C6_witness :
    register_task "psi" (fun (_ : DeviceSet) (_ : TaskConfig) => Except.ok (1 : Nat))
        [("psi", fun (_ : DeviceSet) (_ : TaskConfig) => Except.ok (0 : Nat))]
      = (.error (.valueErrorDuplicateTask "psi"),
         [("psi", fun (_ : DeviceSet) (_ : TaskConfig) => Except.ok (0 : Nat))]) ∧
    (register_task "psi" (fun (_ : DeviceSet) (_ : TaskConfig) => Except.ok (1 : Nat))
        [("psi", fun (_ : DeviceSet) (_ : TaskConfig) => Except.ok (0 : Nat))]).2.lookup
        "psi"
      = some (fun (_ : DeviceSet) (_ : TaskConfig) => Except.ok (0 : Nat)) :=
  C6_register_task_no_override Nat "psi" _ _ _ rfl

/-- C7: `dispatch` on an unknown type fails with the `ValueError` carrying
the sorted list of registered types (a permutation of all registered
types); on a registered type it invokes the handler and propagates its
result or exception unchanged. -/
theorem C7_dispatch_pure_router (α : Type) (reg : Registry α) (t : String)
    (d : DeviceSet) (c : TaskConfig) :
    (reg.lookup t = none →
       dispatch t d c reg
         = .error (.valueErrorUnknownTask t (list_supported_tasks reg))) ∧
    (∀ f, reg.lookup t = some f → dispatch t d c reg = f d c) ∧
    (list_supported_tasks reg).Perm (reg.map Prod.fst) := by
  refine ⟨?_, ?_, List.perm_insertionSort _ _⟩
  · intro h
    simp [dispatch, h]
  · intro f h
    simp [dispatch, h]

/-- Witness for C7: an unknown type on the empty registry, and a registered
handler whose result comes back unchanged. -/
theorem C7_witness :
    dispatch "psi" [] { task_type := none } ([] : Registry Nat)
      = .error (.valueErrorUnknownTask "psi"
          (list_supported_tasks ([] : Registry Nat))) ∧
    dispatch "psi" [] { task_type := none }
        [("psi", fun (_ : DeviceSet) (_ : TaskConfig) => Except.ok (42 : Nat))]
      = Except.ok 42 :=
  ⟨(C7_dispatch_pure_router Nat [] "psi" [] { task_type := none }).1 rfl,
   (C7_dispatch_pure_router Nat
      [("psi", fun (_ : DeviceSet) (_ : TaskConfig) => Except.ok (42 : Nat))]
      "psi" [] { task_type := none }).2.1 _ rfl⟩

/-- C9: `_publish_status` never raises — every internal failure (timestamp
or settings lookup, missing redis library, redis errors) is caught and
discarded, for every oracle outcome. -/
theorem C9_publish_status_never_raises (env : NotifierEnv) :
    publish_status env = Except.ok () := by
  unfold publish_status
  cases publish_status_attempt env <;> rfl

/-- C8: `cleanup_devices` unconditionally resets the manager to the fresh
state — whatever the held devices and whatever the outcomes of their
shutdown hooks — so an `initialize_devices` after cleanup coincides with
one on a fresh manager; moreover the DeviceSet produced by
`initialize_devices` never depends on the pre-existing manager state, so
nothing leaks from a previous cycle. -/
theorem C8_cleanup_then_initialize_fresh (hook : String → Bool) (st : DMState)
    (pc : Option Unit) (sc : Option SpuConfig) (hc : Option HeuConfig)
    (o : DevOracle) :
    (cleanup_devices hook st).1 = freshDM ∧
    initialize_devices pc sc hc o (cleanup_devices hook st).1
        = initialize_devices pc sc hc o freshDM ∧
    (initialize_devices_core pc sc hc o st).1
        = (initialize_devices_core pc sc hc o freshDM).1 :=
  ⟨rfl, rfl, initialize_devices_fst_state_independent pc sc hc o st freshDM⟩

/-- C2: on every execution path of the orchestrator, the `finally` block
runs `cleanup_devices` before `shutdown_cluster`; each runs at most once,
and exactly once when the corresponding manager was obtained (the cluster
manager always is); and the outcome equals the `try` body's outcome — in
particular it is independent of any failures of the device shutdown hooks
or of `sf.shutdown` during cleanup, which are swallowed. -/
theorem C2_cleanup_invariants (α : Type) (env : ExecEnv α)
    (h₁ h₂ : String → Bool) (s₁ s₂ : Bool) (ci0 : CIState) (dm0 : DMState) :
    ((execute_secretflow_task env ci0 dm0).cleanup_trace.count
        CleanupEv.cleanup_devices
      = if (execute_secretflow_task env ci0 dm0).device_obtained then 1 else 0) ∧
    ((execute_secretflow_task env ci0 dm0).cleanup_trace.count
        CleanupEv.shutdown_cluster = 1) ∧
    (execute_secretflow_task env ci0 dm0).cluster_obtained = true ∧
    ((execute_secretflow_task env ci0 dm0).device_obtained = true →
       (execute_secretflow_task env ci0 dm0).cleanup_trace
         = [CleanupEv.cleanup_devices, CleanupEv.shutdown_cluster]) ∧
    ((execute_secretflow_task env ci0 dm0).device_obtained = false →
       (execute_secretflow_task env ci0 dm0).cleanup_trace
         = [CleanupEv.shutdown_cluster]) ∧
    (execute_secretflow_task env ci0 dm0).outcome
      = (exec_try_phase env ci0 dm0).outcome ∧
    (execute_secretflow_task
        { env with hook_ok := h₁, sf_shutdown_ok := s₁ } ci0 dm0).outcome
      = (execute_secretflow_task
          { env with hook_ok := h₂, sf_shutdown_ok := s₂ } ci0 dm0).outcome := by
  have hcl := exec_try_phase_cluster_obtained env ci0 dm0
  have hdeveq : (execute_secretflow_task env ci0 dm0).device_obtained
      = (exec_try_phase env ci0 dm0).device_obtained := rfl
  have htrace : (execute_secretflow_task env ci0 dm0).cleanup_trace
      = (if (exec_try_phase env ci0 dm0).device_obtained then
          [CleanupEv.cleanup_devices] else []) ++ [CleanupEv.shutdown_cluster] := by
    show ((if (exec_try_phase env ci0 dm0).device_obtained then
        [CleanupEv.cleanup_devices] else []) ++
      (if (exec_try_phase env ci0 dm0).cluster_obtained then
        [CleanupEv.shutdown_cluster] else [])) = _
    rw [hcl]
    rfl
  refine ⟨?_, ?_, hcl, ?_, ?_, rfl, rfl⟩
  · rw [htrace, hdeveq]
    cases hdev : (exec_try_phase env ci0 dm0).device_obtained <;> simp [hdev]
  · rw [htrace]
    cases hdev : (exec_try_phase env ci0 dm0).device_obtained <;> simp [hdev]
  · intro h
    rw [htrace, show (exec_try_phase env ci0 dm0).device_obtained = true from h]
    rfl
  · intro h
    rw [htrace, show (exec_try_phase env ci0 dm0).device_obtained = false from h]
    rfl

/-- Witness for C2 on a concrete successful run (one party, valid SPU,
registered handler): both cleanup steps happen in order and the outcome is
the handler's result, untouched by cleanup. -/
theorem C2_witness :
    (execute_secretflow_task
        (⟨⟨true, 1⟩, true, ⟨fun _ => true, true, true, 1, 1, 1⟩, fun _ => true,
          some ⟨some ⟨[⟨some "alice"⟩]⟩⟩, none, ⟨some "psi"⟩,
          [("psi", fun _ _ => Except.ok (7 : Nat))]⟩ : ExecEnv Nat)
        freshCI freshDM).cleanup_trace
      = [CleanupEv.cleanup_devices, CleanupEv.shutdown_cluster] ∧
    (execute_secretflow_task
        (⟨⟨true, 1⟩, true, ⟨fun _ => true, true, true, 1, 1, 1⟩, fun _ => true,
          some ⟨some ⟨[⟨some "alice"⟩]⟩⟩, none, ⟨some "psi"⟩,
          [("psi", fun _ _ => Except.ok (7 : Nat))]⟩ : ExecEnv Nat)
        freshCI freshDM).outcome
      = (exec_try_phase
          (⟨⟨true, 1⟩, true, ⟨fun _ => true, true, true, 1, 1, 1⟩, fun _ => true,
            some ⟨some ⟨[⟨some "alice"⟩]⟩⟩, none, ⟨some "psi"⟩,
            [("psi", fun _ _ => Except.ok (7 : Nat))]⟩ : ExecEnv Nat)
          freshCI freshDM).outcome :=
  ⟨(C2_cleanup_invariants Nat _ (fun _ => true) (fun _ => true) true true
      freshCI freshDM).2.2.2.1 rfl,
   (C2_cleanup_invariants Nat _ (fun _ => true) (fun _ => true) true true
      freshCI freshDM).2.2.2.2.2.1⟩

/-- C10: a phase duration equal to exactly `0` is reported as `None` —
indistinguishable from a phase that never ran, because the code tests
truthiness rather than presence — while the percentages and
`overhead_time` treat it as contributing `0` (the whole metrics dict
coincides with the never-ran one). -/
theorem C10_zero_duration_reported_none (tt : ℚ) (x y : Option ℚ) :
    collect_performance_metrics tt (some 0) x y
        = collect_performance_metrics tt none x y ∧
    collect_performance_metrics tt x (some 0) y
        = collect_performance_metrics tt x none y ∧
    collect_performance_metrics tt x y (some 0)
        = collect_performance_metrics tt x y none ∧
    (collect_performance_metrics tt (some 0) x y).cluster_init_time = none ∧
    (collect_performance_metrics tt x (some 0) y).device_init_time = none ∧
    (collect_performance_metrics tt x y (some 0)).algorithm_exec_time = none := by
  refine ⟨?_, ?_, ?_, ?_, ?_, ?_⟩ <;>
    simp [collect_performance_metrics, report_time, qTruthy, pyOr0]

/-- C3: the queue wrapper's retry policy.  A body that keeps raising a
retryable error (`ClusterInitError` / `DeviceConfigError`, including
subclasses) is attempted `max_retries + 1 = 4` times with a fixed 60-second
countdown before each retry and then reported as a terminal failure; a body
whose first attempt raises any non-retryable error (timeout included) is
terminal after exactly one attempt; exactly the `ClusterInitError` /
`DeviceConfigError` family is retryable; and every retry delay ever used
is the countdown, which is bounded by `retry_backoff_max`. -/
theorem C3_retry_policy :
    (∀ (α : Type) (e : PyErr) (body : Nat → Except PyErr α),
       (∀ n, body n = .error e) → is_retryable_error e = true →
       celery_run body 0
         = { result := .error e, attempts := max_retries + 1,
             delays := [retry_countdown, retry_countdown, retry_countdown] }) ∧
    (∀ (α : Type) (e : PyErr) (body : Nat → Except PyErr α),
       body 0 = .error e → is_retryable_error e = false →
       celery_run body 0 = { result := .error e, attempts := 1, delays := [] }) ∧
    (∀ e : PyErr, is_retryable_error e = true ↔
       ((∃ m, e = .clusterInitError m) ∨ (∃ m, e = .deviceConfigError m) ∨
        (∃ m, e = .spuInitError m) ∨ (∃ m, e = .heuInitError m))) ∧
    (∀ (α : Type) (body : Nat → Except PyErr α) (r d : Nat),
       d ∈ (celery_run body r).delays →
         d = retry_countdown ∧ d ≤ retry_backoff_max) := by
  refine ⟨?_, ?_, ?_, ?_⟩
  · intro α e body hb hr
    have hne : e ≠ PyErr.softTimeLimitExceeded := by
      intro hh
      rw [hh] at hr
      simp [is_retryable_error] at hr
    have hw : ∀ n, wrapper_attempt (body n)
        = AttemptStep.retryRequested e retry_countdown := by
      intro n
      simp [wrapper_attempt, hb n, hne, hr]
    have h3 : celery_run body 3
        = { result := .error e, attempts := 1, delays := [] } :=
      celery_run_retry_ge body 3 e retry_countdown (by decide) (hw 3)
    have h2 : celery_run body 2
        = { result := .error e, attempts := 2, delays := [retry_countdown] } := by
      rw [celery_run_retry_lt body 2 e retry_countdown (by decide) (hw 2), h3]
    have h1 : celery_run body 1
        = { result := .error e, attempts := 3,
            delays := [retry_countdown, retry_countdown] } := by
      rw [celery_run_retry_lt body 1 e retry_countdown (by decide) (hw 1), h2]
    rw [celery_run_retry_lt body 0 e retry_countdown (by decide) (hw 0), h1]
    rfl
  · intro α e body hb hr
    by_cases hs : e = PyErr.softTimeLimitExceeded
    · refine celery_run_terminal body 0 e ?_
      simp [wrapper_attempt, hb, hs]
    · refine celery_run_terminal body 0 e ?_
      simp [wrapper_attempt, hb, hs, hr]
  · intro e
    cases e <;> simp [is_retryable_error]
  · intro α body r d hd
    refine ⟨celery_run_delays body max_retries r (by omega) d hd, ?_⟩
    rw [celery_run_delays body max_retries r (by omega) d hd]
    decide

/-- Witness for C3: a handler that always raises `DeviceConfigError` is
retried to exhaustion (four attempts, three 60-second countdowns) and then
fails; a handler raising `ParameterValidationError` fails after a single
attempt with zero retries. -/
theorem C3_witness :
    celery_run
        (fun _ => Except.error (PyErr.deviceConfigError "x") :
          Nat → Except PyErr Unit) 0
      = { result := Except.error (PyErr.deviceConfigError "x"),
          attempts := max_retries + 1,
          delays := [retry_countdown, retry_countdown, retry_countdown] } ∧
    celery_run
        (fun _ => Except.error (PyErr.parameterValidationError "y") :
          Nat → Except PyErr Unit) 0
      = { result := Except.error (PyErr.parameterValidationError "y"),
          attempts := 1, delays := [] } :=
  ⟨C3_retry_policy.1 Unit (PyErr.deviceConfigError "x") _ (fun _ => rfl) rfl,
   C3_retry_policy.2.1 Unit (PyErr.parameterValidationError "y") _ rfl rfl⟩

end SFWorker
